import Mathlib

/-
Verification of the response orchestration pipeline of the AzureMLChat
training sample (LV1 non-streaming UI, LV2 streaming UI, LV3 streaming UI
with a live HTTP call-log panel, and the shared `src/chat.py` /
`src/utils.py` core).

The embedding models the pipeline as pure functions over an explicit
oracle for the single network round trip (`HttpResponse`): the UI layer,
credential resolution and the actual socket are external collaborators.
Decoded JSON response bodies are modelled as flat string-valued objects
(`List (String × String)`), which covers every body shape the pipeline
inspects (it only ever reads the string under the "answer" key);
an undecodable body is `none`.  Python exceptions escaping a function are
modelled explicitly (`PyError`), and a generator is modelled by the list
of values it yields plus an optional terminal exception (`GenResult`).
-/

/-- A decoded JSON response body: a flat JSON object with string values. -/
abbrev JsonBody := List (String × String)

/-- The observable outcome of `requests.post`: status code, reason phrase,
and the decoded JSON body (`none` when the body fails to decode). -/
structure HttpResponse where
  status_code : Nat
  reason : String
  body : Option JsonBody
deriving Repr, DecidableEq

/-- One entry of the display-oriented chat log: `\x7brole, content\x7d`. -/
structure DisplayMsg where
  role : String
  content : String
deriving Repr, DecidableEq

/-- One entry of the ML-oriented chat log:
`\x7binputs: \x7bquestion: q\x7d, outputs: o\x7d`. -/
structure MlMsg where
  question : String
  outputs : String
deriving Repr, DecidableEq

/-- Python's `dict.get(key, default)` on a decoded body. -/
def dictGet (j : JsonBody) (key default : String) : String :=
  match j.find? (fun p => p.1 == key) with
  | some p => p.2
  | none => default

/-- `BaseChatApp.exec_api` (src/chat.py).  `requests.Response.raise_for_status`
raises `HTTPError` exactly for status codes in `[400, 600)`; on that path the
function returns Python `None` (modelled `none`).  On a JSON decode error it
returns the tuple `(None, None, None)`; on success `(json, status, reason)`. -/
def exec_api (r : HttpResponse) :
    Option (Option JsonBody × Option Nat × Option String) :=
  if 400 ≤ r.status_code ∧ r.status_code < 600 then
    none
  else
    match r.body with
    | none => some (none, none, none)
    | some j => some (some j, some r.status_code, some r.reason)

/-- A Python exception escaping a pipeline function. -/
inductive PyError where
  | attributeError : PyError
deriving Repr, DecidableEq

/-- `AISimpleResponse` (src/chat.py): the plain response envelope. -/
structure AISimpleResponse where
  bot_message : String
  chat_history : List DisplayMsg
  chat_history_for_ml : List MlMsg
deriving Repr, DecidableEq

/-- `AICustomResponse` (src/chat.py): the audit-variant envelope with the
three call-log fields. -/
structure AICustomResponse where
  bot_message : String
  chat_history : List DisplayMsg
  chat_history_for_ml : List MlMsg
  call_history : String
  call_log_md_display : String
  call_count : Nat
deriving Repr, DecidableEq

/-- The observable behaviour of a Python generator: the values it yields,
in order, and the exception (if any) that terminates it. -/
structure GenResult (α : Type) where
  yields : List α
  error : Option PyError
deriving Repr, DecidableEq

/-- `ChatApp.respond_simple` (LV1_nonstreaming_ui.py).  Python truthiness of
the `exec_api` result: `None` is falsy, the 3-tuple `(None, None, None)` is
truthy, so the decode-failure tuple passes the `if not result` guard and
`res_json.get` is then called on `None`, raising `AttributeError`.  On the
falsy (HTTP-error) path the function executes a bare `return`, i.e. returns
Python `None` (modelled `Except.ok none`). -/
def respond_simple (r : HttpResponse) (msg : String)
    (chat_history : List DisplayMsg) (chat_history_for_ml : List MlMsg) :
    Except PyError (Option AISimpleResponse) :=
  match exec_api r with
  | none => .ok none
  | some (res_json, _, _) =>
    match res_json with
    | none => .error .attributeError
    | some j =>
      let bot_message := dictGet j "answer" "<EMPTY>"
      let chat_history := chat_history ++
        [⟨"user", msg⟩, ⟨"assistant", bot_message⟩]
      let chat_history_for_ml := chat_history_for_ml ++ [⟨msg, bot_message⟩]
      .ok (some ⟨"", chat_history, chat_history_for_ml⟩)

/-- The character-reveal loop of `ChatApp.respond_stream`
(LV2_streaming_ui.py): iterates over the characters of the answer,
growing the accumulated `content` of the shared `response` entry and
yielding an envelope per character. -/
def streamYields (chars : List Char) (content : String)
    (fixedPart : List DisplayMsg) (chat_history_for_ml : List MlMsg) :
    List AISimpleResponse :=
  match chars with
  | [] => []
  | c :: rest =>
    let content := content.push c
    ⟨"", fixedPart ++ [⟨"assistant", content⟩], chat_history_for_ml⟩ ::
      streamYields rest content fixedPart chat_history_for_ml

/-- `ChatApp.respond_stream` (LV2_streaming_ui.py).  On the falsy
(HTTP-error) `exec_api` result it yields exactly one envelope with the
input histories and returns; on the decode-failure tuple it raises
`AttributeError` before yielding anything; on success it appends the full
turn to both histories and then runs the character-reveal loop over
`chat_history[:-1]`. -/
def respond_stream (r : HttpResponse) (msg : String)
    (chat_history : List DisplayMsg) (chat_history_for_ml : List MlMsg) :
    GenResult AISimpleResponse :=
  match exec_api r with
  | none => ⟨[⟨"", chat_history, chat_history_for_ml⟩], none⟩
  | some (res_json, _, _) =>
    match res_json with
    | none => ⟨[], some .attributeError⟩
    | some j =>
      let bot_message := dictGet j "answer" "<EMPTY>"
      let chat_history := chat_history ++
        [⟨"user", msg⟩, ⟨"assistant", bot_message⟩]
      let chat_history_for_ml := chat_history_for_ml ++ [⟨msg, bot_message⟩]
      ⟨streamYields bot_message.data "" chat_history.dropLast
        chat_history_for_ml, none⟩

/-- The per-session fields of `BaseChatApp` that `create_http_log` and the
LV3 pipeline read (`self._endpoint_key`, `self._deployment_name`,
`self.protocol`, `self.host`, `self.path`).  The raw credential
`endpoint_key` is carried in the state exactly as in the Python object. -/
structure ChatAppState where
  endpoint_key : String
  deployment_name : String
  protocol : String
  host : String
  path : String
deriving Repr, DecidableEq

/-- JSON values, for the payload and body documents rendered by
`json.dumps` inside `create_http_log`. -/
inductive Json where
  | null : Json
  | str : String → Json
  | num : Int → Json
  | arr : List Json → Json
  | obj : List (String × Json) → Json

/-- Hexadecimal digit for a nibble. -/
def hexDigit (n : Nat) : Char :=
  if n < 10 then Char.ofNat (48 + n) else Char.ofNat (87 + n)

/-- Four-digit lowercase hexadecimal rendering, as in JSON escapes. -/
def hex4 (n : Nat) : String :=
  String.mk [hexDigit (n / 4096 % 16), hexDigit (n / 256 % 16),
    hexDigit (n / 16 % 16), hexDigit (n % 16)]

/-- The string-escaping of `json.dumps` with `ensure_ascii=False`:
backslash, quote, and control characters are escaped; everything else
passes through. -/
def jsonEscape (s : String) : String :=
  s.data.foldl (fun acc c =>
    if c = '\\' then acc ++ "\\\\"
    else if c = '"' then acc ++ "\\\""
    else if c = '\n' then acc ++ "\\n"
    else if c = '\t' then acc ++ "\\t"
    else if c = '\r' then acc ++ "\\r"
    else if c.toNat < 32 then acc ++ "\\u" ++ hex4 c.toNat
    else acc.push c) ""

/-- Indentation produced by `json.dumps(..., indent=4)` at nesting level
`lvl`. -/
def indentStr (lvl : Nat) : String :=
  String.join (List.replicate lvl "    ")

mutual

/-- `json.dumps(v, indent=4, ensure_ascii=False)` at nesting level `lvl`. -/
def jsonDumpsAux : Nat → Json → String
  | _, .null => "null"
  | _, .str s => "\"" ++ jsonEscape s ++ "\""
  | _, .num n => toString n
  | _, .arr [] => "[]"
  | lvl, .arr (x :: xs) =>
    "[\n" ++ jsonDumpsItems lvl (x :: xs) ++ "\n" ++ indentStr lvl ++ "]"
  | _, .obj [] => "\x7b\x7d"
  | lvl, .obj (f :: fs) =>
    "\x7b\n" ++ jsonDumpsFields lvl (f :: fs) ++ "\n" ++ indentStr lvl ++
      "\x7d"

/-- Comma-and-newline separated array items, indented one level deeper. -/
def jsonDumpsItems : Nat → List Json → String
  | _, [] => ""
  | lvl, [x] => indentStr (lvl + 1) ++ jsonDumpsAux (lvl + 1) x
  | lvl, x :: y :: xs =>
    indentStr (lvl + 1) ++ jsonDumpsAux (lvl + 1) x ++ ",\n" ++
      jsonDumpsItems lvl (y :: xs)

/-- Comma-and-newline separated object fields, indented one level deeper. -/
def jsonDumpsFields : Nat → List (String × Json) → String
  | _, [] => ""
  | lvl, [(k, v)] =>
    indentStr (lvl + 1) ++ "\"" ++ jsonEscape k ++ "\": " ++
      jsonDumpsAux (lvl + 1) v
  | lvl, (k, v) :: f :: fs =>
    indentStr (lvl + 1) ++ "\"" ++ jsonEscape k ++ "\": " ++
      jsonDumpsAux (lvl + 1) v ++ ",\n" ++ jsonDumpsFields lvl (f :: fs)

end

/-- Top-level `json.dumps(v, indent=4, ensure_ascii=False)`. -/
def jsonDumps (v : Json) : String :=
  jsonDumpsAux 0 v

/-- The ML-form chat history as the JSON document sent in the request
payload. -/
def mlHistoryJson (chat_history_for_ml : List MlMsg) : Json :=
  .arr (chat_history_for_ml.map fun m =>
    .obj [("inputs", .obj [("question", .str m.question)]),
      ("outputs", .str m.outputs)])

/-- The decoded body, as the JSON document dumped into the call log
(`json.dumps(None)` renders `null`). -/
def jsonOfBody : Option JsonBody → Json
  | none => .null
  | some j => .obj (j.map fun p => (p.1, .str p.2))

/-- Rendering of an `Option Nat` by a Python f-string (`None` or the
number). -/
def pyStrOfOptNat : Option Nat → String
  | none => "None"
  | some n => toString n

/-- Rendering of an `Option String` by a Python f-string (`None` or the
string itself). -/
def pyStrOfOptStr : Option String → String
  | none => "None"
  | some s => s

/-- The part of the `create_http_log` template (src/utils.py) that precedes
the masked Authorization header value: request banner, request line with
`path` and `protocol`, then the Host and Accept headers and the
Authorization header name. -/
def httpLogBeforeMask (call_count : Nat) (cls : ChatAppState) : String :=
  "\n<span style=\"color: orange;\">#" ++ toString call_count ++
    " API Request</span>\n" ++
  "<pre class=\"language-http\" tabindex=\"0\">\n" ++
  "<span class=\"token request-line\"><span class=\"token method property\">POST </span><span class=\"token request-target url\">"
    ++ cls.path ++
    " </span><span class=\"token http-version property\">" ++ cls.protocol ++
    "</span></span>\n" ++
  "<span class=\"token header\"><span class=\"token header-name keyword\">Host</span><span class=\"token punctuation\">: </span><span class=\"token header-value\">"
    ++ cls.host ++ "</span></span>\n" ++
  "<span class=\"token header\"><span class=\"token header-name keyword\">Accept</span><span class=\"token punctuation\">: </span><span class=\"token header-value\">application/json</span></span>\n"
    ++
  "<span class=\"token header\"><span class=\"token header-name keyword\">Authorization</span><span class=\"token punctuation\">: </span><span class=\"token header-value\">"

/-- The part of the `create_http_log` template (src/utils.py) that follows
the masked Authorization header value: remaining headers, the dumped
request payload, the response banner, status line and dumped response
body. -/
def httpLogAfterMask (call_count : Nat) (cls : ChatAppState)
    (jinput joutput : Json) (res_status_code : Option Nat)
    (res_status_reason : Option String) : String :=
  "</span></span>\n" ++
  "<span class=\"token header\"><span class=\"token header-name keyword\">azureml-model-deployment</span><span class=\"token punctuation\">: </span><span class=\"token header-value\">"
    ++ cls.deployment_name ++ "</span></span>\n" ++
  "<span class=\"token header\"><span class=\"token header-name keyword\">Content-Type</span><span class=\"token punctuation\">: </span><span class=\"token header-value\">application/json</span></span>\n"
    ++ "\n" ++
  jsonDumps jinput ++ "\n</pre>\n\n" ++
  "<span style=\"color: orange;\">#" ++ toString call_count ++
    " Response</span>\n" ++
  "<pre class=\"language-http\" tabindex=\"0\">\n" ++
  "<span class=\"token response-status\"><span class=\"token http-version property\">HTTP/1.1 </span><span class=\"token status-code number\">"
    ++ pyStrOfOptNat res_status_code ++
    " </span><span class=\"token reason-phrase string\">" ++
    pyStrOfOptStr res_status_reason ++ "</span></span>\n" ++
  "<span class=\"token header\"><span class=\"token header-name keyword\">Content-Type</span><span class=\"token punctuation\">: </span><span class=\"token header-value\">application/json</span></span>\n"
    ++ "\n" ++
  jsonDumps joutput ++ "\n</pre>\n<hr>\n    "

/-- `create_http_log` (src/utils.py): the formatted request/response block
appended to the call log.  The Authorization header value is the fixed
masked placeholder; the template never interpolates
`cls.endpoint_key`. -/
def create_http_log (call_count : Nat) (cls : ChatAppState)
    (jinput joutput : Json) (res_status_code : Option Nat)
    (res_status_reason : Option String) : String :=
  httpLogBeforeMask call_count cls ++
    ("Bearer &lt; MASKED_APIKey &gt;" ++
      httpLogAfterMask call_count cls jinput joutput res_status_code
        res_status_reason)

/-- `format_http_log` (src/utils.py): wraps the accumulated call history
in the display-ready HTML document. -/
def format_http_log (call_history : String) : String :=
  "\n<head>\n    <!-- Prism.js -->\n    <link rel=\"stylesheet\" href=\"https://cdnjs.cloudflare.com/ajax/libs/prism/1.29.0/themes/prism-tomorrow.min.css\">\n    <script src=\"https://cdnjs.cloudflare.com/ajax/libs/prism/1.29.0/components/prism-core.min.js\"></script>\n    <!-- Prism.js additional Plugin -->\n    <script src=\"https://cdnjs.cloudflare.com/ajax/libs/prism/1.29.0/plugins/autoloader/prism-autoloader.min.js\"></script>\n    <script src=\"https://cdnjs.cloudflare.com/ajax/libs/prism/1.29.0/plugins/normalize-whitespace/prism-normalize-whitespace.min.js\"></script>\n</head>\n\n<body>\n    "
    ++ call_history ++ "\n</body>\n        "

/-- An envelope yielded by the LV3 generator: the failure path yields a
plain `AISimpleResponse`, the success loop yields `AICustomResponse`. -/
inductive LV3Response where
  | simple : AISimpleResponse → LV3Response
  | custom : AICustomResponse → LV3Response
deriving Repr, DecidableEq

/-- The character-reveal loop of the LV3 `ChatApp.respond_stream`
(LV3_realtime_httplog_streaming_ui.py): as in LV2, but yielding
`AICustomResponse` envelopes carrying the three audit fields. -/
def streamYieldsCustom (chars : List Char) (content : String)
    (fixedPart : List DisplayMsg) (chat_history_for_ml : List MlMsg)
    (call_history call_log_md_display : String) (call_count : Nat) :
    List LV3Response :=
  match chars with
  | [] => []
  | c :: rest =>
    let content := content.push c
    .custom ⟨"", fixedPart ++ [⟨"assistant", content⟩], chat_history_for_ml,
        call_history, call_log_md_display, call_count⟩ ::
      streamYieldsCustom rest content fixedPart chat_history_for_ml
        call_history call_log_md_display call_count

/-- `ChatApp.respond_stream` (LV3_realtime_httplog_streaming_ui.py).  On
the falsy (HTTP-error) `exec_api` result it yields exactly one plain
`AISimpleResponse` with the input histories and returns.  Otherwise it
builds the request payload, increments `call_count`, appends the formatted
entry to `call_history` and re-renders the document; on the decode-failure
tuple the subsequent `res_json.get` raises `AttributeError` before anything
is yielded; on success it appends the full turn to both histories and runs
the character-reveal loop with the audit values fixed. -/
def respond_stream_lv3 (cls : ChatAppState) (r : HttpResponse) (msg : String)
    (chat_history : List DisplayMsg) (chat_history_for_ml : List MlMsg)
    (call_history call_log_md_display : String) (call_count : Nat) :
    GenResult LV3Response :=
  match exec_api r with
  | none => ⟨[.simple ⟨"", chat_history, chat_history_for_ml⟩], none⟩
  | some (res_json, res_status_code, res_status_reason) =>
    let payload : Json := .obj [("question", .str msg),
      ("chat_history", mlHistoryJson chat_history_for_ml)]
    let call_count := call_count + 1
    let call_history := call_history ++
      create_http_log call_count cls payload (jsonOfBody res_json)
        res_status_code res_status_reason
    let call_log_md_display := format_http_log call_history
    match res_json with
    | none => ⟨[], some .attributeError⟩
    | some j =>
      let bot_message := dictGet j "answer" "<EMPTY>"
      let chat_history := chat_history ++
        [⟨"user", msg⟩, ⟨"assistant", bot_message⟩]
      let chat_history_for_ml := chat_history_for_ml ++ [⟨msg, bot_message⟩]
      ⟨streamYieldsCustom bot_message.data "" chat_history.dropLast
        chat_history_for_ml call_history call_log_md_display call_count,
        none⟩

theorem exec_api_success (r : HttpResponse) (j : JsonBody)
    (hok : r.status_code < 400) (hbody : r.body = some j) :
    exec_api r = some (some j, some r.status_code, some r.reason) := by
  unfold exec_api
  rw [if_neg (by omega : ¬(400 ≤ r.status_code ∧ r.status_code < 600)),
    hbody]

theorem exec_api_http_failure (r : HttpResponse)
    (h1 : 400 ≤ r.status_code) (h2 : r.status_code < 600) :
    exec_api r = none := by
  unfold exec_api
  rw [if_pos ⟨h1, h2⟩]

theorem dictGet_of_find_none (j : JsonBody) (key default : String)
    (h : j.find? (fun p => p.1 == key) = none) :
    dictGet j key default = default := by
  unfold dictGet
  rw [h]

theorem streamYields_length (chars : List Char) (content : String)
    (fixedPart : List DisplayMsg) (ml : List MlMsg) :
    (streamYields chars content fixedPart ml).length = chars.length := by
  induction chars generalizing content with
  | nil => rfl
  | cons c rest ih => simp [streamYields, ih]

theorem streamYields_get (fixedPart : List DisplayMsg) (ml : List MlMsg) :
    ∀ (chars acc : List Char) (i : Nat)
      (h : i < (streamYields chars (String.mk acc) fixedPart ml).length),
      (streamYields chars (String.mk acc) fixedPart ml).get ⟨i, h⟩ =
        ⟨"", fixedPart ++
          [⟨"assistant", String.mk (acc ++ chars.take (i + 1))⟩], ml⟩ := by
  intro chars
  induction chars with
  | nil => intro acc i h; simp [streamYields] at h
  | cons c rest ih =>
    intro acc i h
    match i with
    | 0 =>
      simp only [streamYields, List.get]
      simp [String.push]
    | Nat.succ i =>
      have h' :
          i < (streamYields rest (String.mk (acc ++ [c]))
            fixedPart ml).length := by
        have h2 := h
        simp only [streamYields, List.length_cons] at h2
        exact Nat.lt_of_succ_lt_succ h2
      show (streamYields rest (String.mk (acc ++ [c]))
        fixedPart ml).get ⟨i, h'⟩ = _
      rw [ih (acc ++ [c]) i h']
      simp [List.append_assoc]

theorem streamYields_mem (fixedPart : List DisplayMsg) (ml : List MlMsg) :
    ∀ (chars : List Char) (acc : String) (e : AISimpleResponse),
      e ∈ streamYields chars acc fixedPart ml →
      e.bot_message = "" ∧ e.chat_history_for_ml = ml ∧
        e.chat_history.length = fixedPart.length + 1 := by
  intro chars
  induction chars with
  | nil => intro acc e h; simp [streamYields] at h
  | cons c rest ih =>
    intro acc e h
    simp only [streamYields, List.mem_cons] at h
    rcases h with h | h
    · subst h; simp
    · exact ih _ e h

theorem streamYieldsCustom_length (chars : List Char) (content : String)
    (fixedPart : List DisplayMsg) (ml : List MlMsg)
    (ch cl : String) (cc : Nat) :
    (streamYieldsCustom chars content fixedPart ml ch cl cc).length =
      chars.length := by
  induction chars generalizing content with
  | nil => rfl
  | cons c rest ih => simp [streamYieldsCustom, ih]

theorem streamYieldsCustom_mem (fixedPart : List DisplayMsg)
    (ml : List MlMsg) (ch cl : String) (cc : Nat) :
    ∀ (chars : List Char) (acc : String) (e : LV3Response),
      e ∈ streamYieldsCustom chars acc fixedPart ml ch cl cc →
      ∃ hist : List DisplayMsg,
        e = .custom ⟨"", hist, ml, ch, cl, cc⟩ := by
  intro chars
  induction chars with
  | nil => intro acc e h; simp [streamYieldsCustom] at h
  | cons c rest ih =>
    intro acc e h
    simp only [streamYieldsCustom, List.mem_cons] at h
    rcases h with h | h
    · exact ⟨fixedPart ++ [⟨"assistant", acc.push c⟩], h⟩
    · exact ih _ e h

theorem respond_stream_success (r : HttpResponse) (msg : String)
    (chat_history : List DisplayMsg) (chat_history_for_ml : List MlMsg)
    (j : JsonBody) (hok : r.status_code < 400) (hbody : r.body = some j) :
    respond_stream r msg chat_history chat_history_for_ml =
      ⟨streamYields (dictGet j "answer" "<EMPTY>").data ""
        (chat_history ++ [⟨"user", msg⟩])
        (chat_history_for_ml ++ [⟨msg, dictGet j "answer" "<EMPTY>"⟩]),
        none⟩ := by
  unfold respond_stream
  rw [exec_api_success r j hok hbody]
  have hdrop :
      (chat_history ++ [(⟨"user", msg⟩ : DisplayMsg),
        ⟨"assistant", dictGet j "answer" "<EMPTY>"⟩]).dropLast =
        chat_history ++ [⟨"user", msg⟩] := by
    rw [show (chat_history ++ [(⟨"user", msg⟩ : DisplayMsg),
        ⟨"assistant", dictGet j "answer" "<EMPTY>"⟩]) =
        (chat_history ++ [⟨"user", msg⟩]) ++
          [⟨"assistant", dictGet j "answer" "<EMPTY>"⟩] by
      simp]
    exact List.dropLast_concat
  simp only [hdrop]

theorem streamYields_get_zero (fixedPart : List DisplayMsg)
    (ml : List MlMsg) (chars : List Char) (i : Nat)
    (h : i < (streamYields chars "" fixedPart ml).length) :
    (streamYields chars "" fixedPart ml).get ⟨i, h⟩ =
      ⟨"", fixedPart ++ [⟨"assistant", String.mk (chars.take (i + 1))⟩],
        ml⟩ :=
  streamYields_get fixedPart ml chars [] i h

theorem respond_simple_success (r : HttpResponse) (msg : String)
    (chat_history : List DisplayMsg) (chat_history_for_ml : List MlMsg)
    (j : JsonBody) (hok : r.status_code < 400) (hbody : r.body = some j) :
    respond_simple r msg chat_history chat_history_for_ml =
      .ok (some ⟨"",
        chat_history ++ [⟨"user", msg⟩,
          ⟨"assistant", dictGet j "answer" "<EMPTY>"⟩],
        chat_history_for_ml ++ [⟨msg, dictGet j "answer" "<EMPTY>"⟩]⟩) := by
  unfold respond_simple
  rw [exec_api_success r j hok hbody]

theorem respond_stream_lv3_success (cls : ChatAppState) (r : HttpResponse)
    (msg : String) (chat_history : List DisplayMsg)
    (chat_history_for_ml : List MlMsg)
    (call_history call_log_md_display : String) (call_count : Nat)
    (j : JsonBody) (hok : r.status_code < 400) (hbody : r.body = some j) :
    respond_stream_lv3 cls r msg chat_history chat_history_for_ml
      call_history call_log_md_display call_count =
      ⟨streamYieldsCustom (dictGet j "answer" "<EMPTY>").data ""
        (chat_history ++ [⟨"user", msg⟩])
        (chat_history_for_ml ++ [⟨msg, dictGet j "answer" "<EMPTY>"⟩])
        (call_history ++ create_http_log (call_count + 1) cls
          (.obj [("question", .str msg),
            ("chat_history", mlHistoryJson chat_history_for_ml)])
          (jsonOfBody (some j)) (some r.status_code) (some r.reason))
        (format_http_log (call_history ++
          create_http_log (call_count + 1) cls
            (.obj [("question", .str msg),
              ("chat_history", mlHistoryJson chat_history_for_ml)])
            (jsonOfBody (some j)) (some r.status_code) (some r.reason)))
        (call_count + 1), none⟩ := by
  unfold respond_stream_lv3
  rw [exec_api_success r j hok hbody]
  have hdrop :
      (chat_history ++ [(⟨"user", msg⟩ : DisplayMsg),
        ⟨"assistant", dictGet j "answer" "<EMPTY>"⟩]).dropLast =
        chat_history ++ [⟨"user", msg⟩] := by
    rw [show (chat_history ++ [(⟨"user", msg⟩ : DisplayMsg),
        ⟨"assistant", dictGet j "answer" "<EMPTY>"⟩]) =
        (chat_history ++ [⟨"user", msg⟩]) ++
          [⟨"assistant", dictGet j "answer" "<EMPTY>"⟩] by
      simp]
    exact List.dropLast_concat
  simp only [hdrop]


/-- C1: the claim says that on every failed endpoint call (non-success HTTP
status, or success status with an undecodable body) the Response Emitter
never raises and produces exactly one terminal envelope with empty display
message and unchanged histories.  The code violates this: on a success
status with an undecodable body, `exec_api` returns the truthy tuple
`(None, None, None)`, the `if not result` guard passes, and
`res_json.get("answer", ...)` raises `AttributeError` out of both
`respond_stream` (before any envelope is yielded) and `respond_simple`.
This theorem evaluates both emitters at that failing input. -/
theorem C1_decode_failure_raises :
    respond_stream ⟨200, "OK", none⟩ "hi" [] [] =
      ⟨[], some PyError.attributeError⟩ ∧
    respond_simple ⟨200, "OK", none⟩ "hi" [] [] =
      Except.error PyError.attributeError := by
  exact ⟨rfl, rfl⟩

/-- C2: the claim says that in atomic mode a failed call makes
`respond_simple` return one terminal envelope with empty display message
and unchanged histories.  The code violates this: on an HTTP 500 the
`if not result` guard triggers a bare `return`, so `respond_simple`
returns Python `None` — no envelope at all.  This theorem evaluates
`respond_simple` at that failing input. -/
theorem C2_http_failure_returns_no_envelope :
    respond_simple ⟨500, "Internal Server Error", none⟩ "hi" [] [] =
      Except.ok none := by
  exact rfl

/-- C3: for every successful call, the streaming sequence yields exactly
one envelope per character of the (normalized) answer, the sequence for an
empty answer is empty, and the generator terminates without raising. -/
theorem C3_streaming_yield_count (r : HttpResponse) (msg : String)
    (chat_history : List DisplayMsg) (chat_history_for_ml : List MlMsg)
    (j : JsonBody) (hok : r.status_code < 400) (hbody : r.body = some j) :
    (respond_stream r msg chat_history chat_history_for_ml).yields.length =
      (dictGet j "answer" "<EMPTY>").length ∧
    (respond_stream r msg chat_history chat_history_for_ml).error =
      none := by
  rw [respond_stream_success r msg chat_history chat_history_for_ml j hok
    hbody]
  exact ⟨streamYields_length _ _ _ _, rfl⟩

/-- Witness for C3 at a concrete successful call whose answer is the empty
string: the streaming sequence is empty and no error is signalled. -/
theorem C3_streaming_yield_count_witness :
    (respond_stream ⟨200, "OK", some [("answer", "")]⟩ "hi" []
      []).yields.length = (dictGet [("answer", "")] "answer"
        "<EMPTY>").length ∧
    (respond_stream ⟨200, "OK", some [("answer", "")]⟩ "hi" [] []).error =
      none :=
  C3_streaming_yield_count ⟨200, "OK", some [("answer", "")]⟩ "hi" [] []
    [("answer", "")] (by decide) rfl

theorem streamYields_getLast (fixedPart : List DisplayMsg)
    (ml : List MlMsg) (s : String)
    (hne : streamYields s.data "" fixedPart ml ≠ []) :
    (streamYields s.data "" fixedPart ml).getLast hne =
      ⟨"", fixedPart ++ [⟨"assistant", s⟩], ml⟩ := by
  have hlen := streamYields_length s.data "" fixedPart ml
  have hpos : 0 < s.data.length := by
    cases hd : s.data with
    | nil =>
      exfalso
      apply hne
      rw [show streamYields s.data "" fixedPart ml =
        streamYields [] "" fixedPart ml by rw [hd]]
      rfl
    | cons c rest => simp
  have hlt : (streamYields s.data "" fixedPart ml).length - 1 <
      (streamYields s.data "" fixedPart ml).length := by omega
  have hg := streamYields_get_zero fixedPart ml s.data
    ((streamYields s.data "" fixedPart ml).length - 1) hlt
  rw [show (streamYields s.data "" fixedPart ml).length - 1 + 1 =
      s.data.length by omega, List.take_length s.data] at hg
  rw [show String.mk s.data = s from rfl] at hg
  rw [List.getLast_eq_getElem]
  rw [List.get_eq_getElem] at hg
  exact hg

/-- C4: on a successful streaming call the i-th yielded envelope's display
history is the updated display log with only the final assistant entry
replaced by the first i characters of the answer (1-based i, here index
`i` carries characters `0..i`), with all earlier entries unchanged; the
last envelope therefore carries the complete answer. -/
theorem C4_streaming_partial_reveal (r : HttpResponse) (msg : String)
    (chat_history : List DisplayMsg) (chat_history_for_ml : List MlMsg)
    (j : JsonBody) (hok : r.status_code < 400) (hbody : r.body = some j) :
    (∀ (i : Nat) (h : i < (respond_stream r msg chat_history
        chat_history_for_ml).yields.length),
      (respond_stream r msg chat_history
          chat_history_for_ml).yields.get ⟨i, h⟩ =
        ⟨"", chat_history ++ [⟨"user", msg⟩, ⟨"assistant",
            String.mk ((dictGet j "answer" "<EMPTY>").data.take (i + 1))⟩],
          chat_history_for_ml ++
            [⟨msg, dictGet j "answer" "<EMPTY>"⟩]⟩) ∧
    (∀ hne : (respond_stream r msg chat_history
        chat_history_for_ml).yields ≠ [],
      (respond_stream r msg chat_history
          chat_history_for_ml).yields.getLast hne =
        ⟨"", chat_history ++ [⟨"user", msg⟩,
            ⟨"assistant", dictGet j "answer" "<EMPTY>"⟩],
          chat_history_for_ml ++
            [⟨msg, dictGet j "answer" "<EMPTY>"⟩]⟩) := by
  rw [respond_stream_success r msg chat_history chat_history_for_ml j hok
    hbody]
  constructor
  · intro i h
    have hg := streamYields_get_zero (chat_history ++ [⟨"user", msg⟩])
      (chat_history_for_ml ++ [⟨msg, dictGet j "answer" "<EMPTY>"⟩])
      (dictGet j "answer" "<EMPTY>").data i h
    simpa [List.append_assoc] using hg
  · intro hne
    have hg := streamYields_getLast (chat_history ++ [⟨"user", msg⟩])
      (chat_history_for_ml ++ [⟨msg, dictGet j "answer" "<EMPTY>"⟩])
      (dictGet j "answer" "<EMPTY>") hne
    simpa [List.append_assoc] using hg

/-- Witness for C4 at a concrete successful call with answer "ok": the
first envelope reveals "o", the last reveals "ok". -/
theorem C4_streaming_partial_reveal_witness :
    (∀ (i : Nat) (h : i < (respond_stream ⟨200, "OK",
        some [("answer", "ok")]⟩ "hi" [] []).yields.length),
      (respond_stream ⟨200, "OK", some [("answer", "ok")]⟩ "hi" []
          []).yields.get ⟨i, h⟩ =
        ⟨"", [] ++ [⟨"user", "hi"⟩, ⟨"assistant", String.mk
            ((dictGet [("answer", "ok")] "answer"
              "<EMPTY>").data.take (i + 1))⟩],
          [] ++ [⟨"hi", dictGet [("answer", "ok")] "answer"
            "<EMPTY>"⟩]⟩) ∧
    (∀ hne : (respond_stream ⟨200, "OK", some [("answer", "ok")]⟩ "hi" []
        []).yields ≠ [],
      (respond_stream ⟨200, "OK", some [("answer", "ok")]⟩ "hi" []
          []).yields.getLast hne =
        ⟨"", [] ++ [⟨"user", "hi"⟩, ⟨"assistant",
            dictGet [("answer", "ok")] "answer" "<EMPTY>"⟩],
          [] ++ [⟨"hi", dictGet [("answer", "ok")] "answer"
            "<EMPTY>"⟩]⟩) :=
  C4_streaming_partial_reveal ⟨200, "OK", some [("answer", "ok")]⟩ "hi" []
    [] [("answer", "ok")] (by decide) rfl

/-- C5: on every successful call the display log grows by exactly the two
entries user-then-assistant and the ML log by exactly the one combined
entry, with all prior entries preserved in order (the new logs are the old
logs with the new entries appended); every streaming envelope also carries
a display history of the grown length and the grown ML history; and the
parity invariant len(display) = 2 * len(ml) is preserved across the
completed turn. -/
theorem C5_history_growth (r : HttpResponse) (msg : String)
    (chat_history : List DisplayMsg) (chat_history_for_ml : List MlMsg)
    (j : JsonBody) (hok : r.status_code < 400) (hbody : r.body = some j) :
    respond_simple r msg chat_history chat_history_for_ml =
      .ok (some ⟨"",
        chat_history ++ [⟨"user", msg⟩,
          ⟨"assistant", dictGet j "answer" "<EMPTY>"⟩],
        chat_history_for_ml ++
          [⟨msg, dictGet j "answer" "<EMPTY>"⟩]⟩) ∧
    (chat_history ++ ([⟨"user", msg⟩,
      ⟨"assistant", dictGet j "answer" "<EMPTY>"⟩] :
        List DisplayMsg)).length =
      chat_history.length + 2 ∧
    (chat_history_for_ml ++
      ([⟨msg, dictGet j "answer" "<EMPTY>"⟩] : List MlMsg)).length =
      chat_history_for_ml.length + 1 ∧
    (∀ e ∈ (respond_stream r msg chat_history chat_history_for_ml).yields,
      e.chat_history_for_ml = chat_history_for_ml ++
        [⟨msg, dictGet j "answer" "<EMPTY>"⟩] ∧
      e.chat_history.length = chat_history.length + 2) ∧
    (chat_history.length = 2 * chat_history_for_ml.length →
      (chat_history ++ ([⟨"user", msg⟩,
        ⟨"assistant", dictGet j "answer" "<EMPTY>"⟩] :
          List DisplayMsg)).length =
        2 * (chat_history_for_ml ++
          ([⟨msg, dictGet j "answer" "<EMPTY>"⟩] :
            List MlMsg)).length) := by
  refine ⟨respond_simple_success r msg chat_history chat_history_for_ml j
    hok hbody, by simp, by simp, ?_, by simp; omega⟩
  rw [respond_stream_success r msg chat_history chat_history_for_ml j hok
    hbody]
  intro e he
  have hm := streamYields_mem (chat_history ++ [⟨"user", msg⟩])
    (chat_history_for_ml ++ [⟨msg, dictGet j "answer" "<EMPTY>"⟩])
    (dictGet j "answer" "<EMPTY>").data "" e he
  refine ⟨hm.2.1, ?_⟩
  rw [hm.2.2]
  simp

/-- Witness for C5 at a concrete successful call on non-empty histories
satisfying the parity invariant. -/
theorem C5_history_growth_witness :
    respond_simple ⟨200, "OK", some [("answer", "ok")]⟩ "again"
      [⟨"user", "hi"⟩, ⟨"assistant", "yo"⟩] [⟨"hi", "yo"⟩] =
      .ok (some ⟨"",
        [⟨"user", "hi"⟩, ⟨"assistant", "yo"⟩] ++ [⟨"user", "again"⟩,
          ⟨"assistant", dictGet [("answer", "ok")] "answer" "<EMPTY>"⟩],
        [⟨"hi", "yo"⟩] ++
          [⟨"again", dictGet [("answer", "ok")] "answer" "<EMPTY>"⟩]⟩) ∧
    (([⟨"user", "hi"⟩, ⟨"assistant", "yo"⟩] : List DisplayMsg) ++
      ([⟨"user", "again"⟩,
        ⟨"assistant", dictGet [("answer", "ok")] "answer" "<EMPTY>"⟩] :
          List DisplayMsg)).length =
      ([⟨"user", "hi"⟩, ⟨"assistant", "yo"⟩] :
        List DisplayMsg).length + 2 ∧
    (([⟨"hi", "yo"⟩] : List MlMsg) ++
      ([⟨"again", dictGet [("answer", "ok")] "answer" "<EMPTY>"⟩] :
        List MlMsg)).length = ([⟨"hi", "yo"⟩] : List MlMsg).length + 1 ∧
    (∀ e ∈ (respond_stream ⟨200, "OK", some [("answer", "ok")]⟩ "again"
        [⟨"user", "hi"⟩, ⟨"assistant", "yo"⟩] [⟨"hi", "yo"⟩]).yields,
      e.chat_history_for_ml = [⟨"hi", "yo"⟩] ++
        [⟨"again", dictGet [("answer", "ok")] "answer" "<EMPTY>"⟩] ∧
      e.chat_history.length = ([⟨"user", "hi"⟩, ⟨"assistant", "yo"⟩] :
        List DisplayMsg).length + 2) ∧
    (([⟨"user", "hi"⟩, ⟨"assistant", "yo"⟩] : List DisplayMsg).length =
      2 * ([⟨"hi", "yo"⟩] : List MlMsg).length →
      (([⟨"user", "hi"⟩, ⟨"assistant", "yo"⟩] : List DisplayMsg) ++
        ([⟨"user", "again"⟩,
          ⟨"assistant", dictGet [("answer", "ok")] "answer" "<EMPTY>"⟩] :
            List DisplayMsg)).length =
        2 * (([⟨"hi", "yo"⟩] : List MlMsg) ++
          ([⟨"again", dictGet [("answer", "ok")] "answer" "<EMPTY>"⟩] :
            List MlMsg)).length) :=
  C5_history_growth ⟨200, "OK", some [("answer", "ok")]⟩ "again"
    [⟨"user", "hi"⟩, ⟨"assistant", "yo"⟩] [⟨"hi", "yo"⟩]
    [("answer", "ok")] (by decide) rfl

/-- C6: on a successful streaming call, every yielded envelope carries the
same ML history, which already contains the full new entry with the
complete answer, even while the display history is still being revealed
character by character. -/
theorem C6_ml_history_complete_before_reveal (r : HttpResponse)
    (msg : String) (chat_history : List DisplayMsg)
    (chat_history_for_ml : List MlMsg) (j : JsonBody)
    (hok : r.status_code < 400) (hbody : r.body = some j) :
    ∀ e ∈ (respond_stream r msg chat_history chat_history_for_ml).yields,
      e.chat_history_for_ml = chat_history_for_ml ++
        [⟨msg, dictGet j "answer" "<EMPTY>"⟩] := by
  rw [respond_stream_success r msg chat_history chat_history_for_ml j hok
    hbody]
  intro e he
  exact (streamYields_mem (chat_history ++ [⟨"user", msg⟩])
    (chat_history_for_ml ++ [⟨msg, dictGet j "answer" "<EMPTY>"⟩])
    (dictGet j "answer" "<EMPTY>").data "" e he).2.1

/-- Witness for C6 at the spec's scenario: message "hi", answer "ok"
(a two-envelope sequence, both carrying the completed ML history). -/
theorem C6_ml_history_complete_before_reveal_witness :
    (respond_stream ⟨200, "OK", some [("answer", "ok")]⟩ "hi" []
      []).yields.length = 2 ∧
    (∀ e ∈ (respond_stream ⟨200, "OK", some [("answer", "ok")]⟩ "hi" []
      []).yields,
      e.chat_history_for_ml = [] ++
        [⟨"hi", dictGet [("answer", "ok")] "answer" "<EMPTY>"⟩]) :=
  ⟨rfl, C6_ml_history_complete_before_reveal ⟨200, "OK",
    some [("answer", "ok")]⟩ "hi" [] [] [("answer", "ok")] (by decide)
    rfl⟩

/-- C7: in the audit variant, a successful call increments `call_count` by
exactly one, and every envelope of the streaming sequence is an audit
envelope carrying the same `call_history`, the same rendered
`call_log_md_display`, and the same incremented `call_count` — these are
fixed before the reveal loop, and only the display history varies. -/
theorem C7_audit_fields_constant (cls : ChatAppState) (r : HttpResponse)
    (msg : String) (chat_history : List DisplayMsg)
    (chat_history_for_ml : List MlMsg)
    (call_history call_log_md_display : String) (call_count : Nat)
    (j : JsonBody) (hok : r.status_code < 400) (hbody : r.body = some j) :
    ∀ e ∈ (respond_stream_lv3 cls r msg chat_history chat_history_for_ml
      call_history call_log_md_display call_count).yields,
      ∃ hist : List DisplayMsg,
        e = .custom ⟨"", hist,
          chat_history_for_ml ++ [⟨msg, dictGet j "answer" "<EMPTY>"⟩],
          call_history ++ create_http_log (call_count + 1) cls
            (.obj [("question", .str msg),
              ("chat_history", mlHistoryJson chat_history_for_ml)])
            (jsonOfBody (some j)) (some r.status_code) (some r.reason),
          format_http_log (call_history ++
            create_http_log (call_count + 1) cls
              (.obj [("question", .str msg),
                ("chat_history", mlHistoryJson chat_history_for_ml)])
              (jsonOfBody (some j)) (some r.status_code) (some r.reason)),
          call_count + 1⟩ := by
  rw [respond_stream_lv3_success cls r msg chat_history chat_history_for_ml
    call_history call_log_md_display call_count j hok hbody]
  intro e he
  exact streamYieldsCustom_mem _ _ _ _ _ _ _ e he

/-- Witness for C7 at a concrete successful call in the audit variant
(a two-envelope sequence, both carrying the same audit triple). -/
theorem C7_audit_fields_constant_witness :
    (respond_stream_lv3 ⟨"sk-secret", "blue", "https", "host.example",
      "/score"⟩ ⟨200, "OK", some [("answer", "ok")]⟩ "hi" [] [] "" ""
      0).yields.length = 2 ∧
    (∀ e ∈ (respond_stream_lv3 ⟨"sk-secret", "blue", "https",
      "host.example", "/score"⟩ ⟨200, "OK", some [("answer", "ok")]⟩ "hi"
      [] [] "" "" 0).yields,
      ∃ hist : List DisplayMsg,
        e = .custom ⟨"", hist,
          [] ++ [⟨"hi", dictGet [("answer", "ok")] "answer" "<EMPTY>"⟩],
          "" ++ create_http_log (0 + 1) ⟨"sk-secret", "blue", "https",
            "host.example", "/score"⟩
            (.obj [("question", .str "hi"),
              ("chat_history", mlHistoryJson [])])
            (jsonOfBody (some [("answer", "ok")])) (some 200) (some "OK"),
          format_http_log ("" ++ create_http_log (0 + 1) ⟨"sk-secret",
            "blue", "https", "host.example", "/score"⟩
            (.obj [("question", .str "hi"),
              ("chat_history", mlHistoryJson [])])
            (jsonOfBody (some [("answer", "ok")])) (some 200) (some "OK")),
          0 + 1⟩) :=
  ⟨rfl, C7_audit_fields_constant ⟨"sk-secret", "blue", "https",
    "host.example", "/score"⟩ ⟨200, "OK", some [("answer", "ok")]⟩ "hi"
    [] [] "" "" 0 [("answer", "ok")] (by decide) rfl⟩

/-- C8: the formatted call-log entry renders the Authorization header with
the fixed masked placeholder and never depends on the raw credential: two
app states that differ only in the bearer token produce identical entries,
and every entry contains the masked placeholder. -/
theorem C8_credential_never_rendered (call_count : Nat)
    (c1 c2 : ChatAppState) (jinput joutput : Json)
    (res_status_code : Option Nat) (res_status_reason : Option String)
    (hdep : c1.deployment_name = c2.deployment_name)
    (hproto : c1.protocol = c2.protocol) (hhost : c1.host = c2.host)
    (hpath : c1.path = c2.path) :
    create_http_log call_count c1 jinput joutput res_status_code
        res_status_reason =
      create_http_log call_count c2 jinput joutput res_status_code
        res_status_reason ∧
    ∃ pre post : String,
      create_http_log call_count c1 jinput joutput res_status_code
          res_status_reason =
        pre ++ ("Bearer &lt; MASKED_APIKey &gt;" ++ post) := by
  constructor
  · unfold create_http_log httpLogBeforeMask httpLogAfterMask
    rw [hdep, hproto, hhost, hpath]
  · exact ⟨httpLogBeforeMask call_count c1,
      httpLogAfterMask call_count c1 jinput joutput res_status_code
        res_status_reason, rfl⟩

/-- Witness for C8: two concrete app states that differ only in the bearer
token. -/
theorem C8_credential_never_rendered_witness :
    create_http_log 1 ⟨"sk-token-A", "blue", "https", "host.example",
        "/score"⟩ (.obj []) .null (some 200) (some "OK") =
      create_http_log 1 ⟨"sk-token-B", "blue", "https", "host.example",
        "/score"⟩ (.obj []) .null (some 200) (some "OK") ∧
    ∃ pre post : String,
      create_http_log 1 ⟨"sk-token-A", "blue", "https", "host.example",
          "/score"⟩ (.obj []) .null (some 200) (some "OK") =
        pre ++ ("Bearer &lt; MASKED_APIKey &gt;" ++ post) :=
  C8_credential_never_rendered 1 ⟨"sk-token-A", "blue", "https",
    "host.example", "/score"⟩ ⟨"sk-token-B", "blue", "https",
    "host.example", "/score"⟩ (.obj []) .null (some 200) (some "OK")
    rfl rfl rfl rfl

/-- C9: on a successful call whose decoded body has no "answer" key the
pipeline does not fail: the answer normalizes to the sentinel "<EMPTY>"
and both the display log and the ML log record that literal string. -/
theorem C9_missing_answer_sentinel (r : HttpResponse) (msg : String)
    (chat_history : List DisplayMsg) (chat_history_for_ml : List MlMsg)
    (j : JsonBody) (hok : r.status_code < 400) (hbody : r.body = some j)
    (hmiss : j.find? (fun p => p.1 == "answer") = none) :
    dictGet j "answer" "<EMPTY>" = "<EMPTY>" ∧
    respond_simple r msg chat_history chat_history_for_ml =
      .ok (some ⟨"",
        chat_history ++ [⟨"user", msg⟩, ⟨"assistant", "<EMPTY>"⟩],
        chat_history_for_ml ++ [⟨msg, "<EMPTY>"⟩]⟩) ∧
    (∀ e ∈ (respond_stream r msg chat_history chat_history_for_ml).yields,
      e.chat_history_for_ml = chat_history_for_ml ++
        [⟨msg, "<EMPTY>"⟩]) ∧
    (respond_stream r msg chat_history chat_history_for_ml).error =
      none := by
  have hd := dictGet_of_find_none j "answer" "<EMPTY>" hmiss
  refine ⟨hd, ?_, ?_, ?_⟩
  · rw [respond_simple_success r msg chat_history chat_history_for_ml j
      hok hbody, hd]
  · rw [respond_stream_success r msg chat_history chat_history_for_ml j
      hok hbody]
    intro e he
    have hm := (streamYields_mem (chat_history ++ [⟨"user", msg⟩])
      (chat_history_for_ml ++ [⟨msg, dictGet j "answer" "<EMPTY>"⟩])
      (dictGet j "answer" "<EMPTY>").data "" e he).2.1
    rw [hm, hd]
  · rw [respond_stream_success r msg chat_history chat_history_for_ml j
      hok hbody]

/-- Witness for C9 at the spec's scenario: the endpoint returns the empty
object with status 200. -/
theorem C9_missing_answer_sentinel_witness :
    dictGet [] "answer" "<EMPTY>" = "<EMPTY>" ∧
    respond_simple ⟨200, "OK", some []⟩ "hi" [] [] =
      .ok (some ⟨"", [] ++ [⟨"user", "hi"⟩, ⟨"assistant", "<EMPTY>"⟩],
        [] ++ [⟨"hi", "<EMPTY>"⟩]⟩) ∧
    (∀ e ∈ (respond_stream ⟨200, "OK", some []⟩ "hi" [] []).yields,
      e.chat_history_for_ml = [] ++ [⟨"hi", "<EMPTY>"⟩]) ∧
    (respond_stream ⟨200, "OK", some []⟩ "hi" [] []).error = none :=
  C9_missing_answer_sentinel ⟨200, "OK", some []⟩ "hi" [] [] []
    (by decide) rfl rfl

/-- C10: in the audit variant, an HTTP failure makes the generator yield
exactly one envelope, a plain `AISimpleResponse` with the input histories
and no audit fields, and the sequence then ends without error. -/
theorem C10_lv3_failure_plain_envelope (cls : ChatAppState)
    (r : HttpResponse) (msg : String) (chat_history : List DisplayMsg)
    (chat_history_for_ml : List MlMsg)
    (call_history call_log_md_display : String) (call_count : Nat)
    (h1 : 400 ≤ r.status_code) (h2 : r.status_code < 600) :
    respond_stream_lv3 cls r msg chat_history chat_history_for_ml
      call_history call_log_md_display call_count =
      ⟨[.simple ⟨"", chat_history, chat_history_for_ml⟩], none⟩ := by
  unfold respond_stream_lv3
  rw [exec_api_http_failure r h1 h2]

/-- Witness for C10: the endpoint returns status 500 in the audit
variant. -/
theorem C10_lv3_failure_plain_envelope_witness :
    respond_stream_lv3 ⟨"sk-secret", "blue", "https", "host.example",
      "/score"⟩ ⟨500, "Internal Server Error", none⟩ "hi"
      [⟨"user", "a"⟩, ⟨"assistant", "b"⟩] [⟨"a", "b"⟩] "log" "doc" 3 =
      ⟨[.simple ⟨"", [⟨"user", "a"⟩, ⟨"assistant", "b"⟩], [⟨"a", "b"⟩]⟩],
        none⟩ :=
  C10_lv3_failure_plain_envelope ⟨"sk-secret", "blue", "https",
    "host.example", "/score"⟩ ⟨500, "Internal Server Error", none⟩ "hi"
    [⟨"user", "a"⟩, ⟨"assistant", "b"⟩] [⟨"a", "b"⟩] "log" "doc" 3
    (by decide) (by decide)
